import Mathlib

/-!
# Verification of the sandboxed code-execution service

Shallow embedding of the repository `nebulaanish/code_editor`:

* `backend/sandbox_runner.py` — the in-process self-restriction layer
  (resource ceilings, seccomp allowlist filter, then `exec` of guest code);
* `backend/src/app/api.py` — the `/execute` orchestrator (temp directory,
  nsjail invocation, wall-clock deadline, timeout handling);
* `backend/src/app/schema.py` — the request/response pydantic models;
* `src/services/user_group.py` — the unprivileged identity provider.
-/

namespace CodeEditor

/-! ## Self-restriction layer: `backend/sandbox_runner.py`

The module is a straight-line script.  Each statement either succeeds or
raises; an uncaught exception at module level terminates the process.  We
model each effectful statement as a step whose success is decided by an
environment oracle, and the run as the list of steps that completed, plus
a flag recording whether the process died from an uncaught exception. -/

/-- The effectful statements of `sandbox_runner.py`, in source order:
`setrlimit(RLIMIT_CPU, …)`, `setrlimit(RLIMIT_AS, …)`,
`setrlimit(RLIMIT_FSIZE, …)`, construction of the seccomp filter with its
four rules, `flt.load()`, `open(code_file)` + read, and finally
`exec(compile(code_source, …), {})`. -/
inductive SRStep where
  | setCpuLimit
  | setAsLimit
  | setFsizeLimit
  | buildFilter
  | loadFilter
  | openCodeFile
  | execGuest
deriving DecidableEq, Repr

/-- Oracle saying which statements of the script succeed when attempted
(the OS may reject a `setrlimit`, the filter may fail to compile or load,
the file may fail to open). -/
structure SREnv where
  cpuOk : Bool
  asOk : Bool
  fsizeOk : Bool
  buildOk : Bool
  loadOk : Bool
  openOk : Bool

/-- Run a straight-line script: execute each statement in order; the first
failing statement raises, aborting the rest.  Returns the statements that
completed and whether the script died with an uncaught exception. -/
def runScript : List (SRStep × Bool) → List SRStep × Bool
  | [] => ([], false)
  | (s, ok) :: rest =>
    if ok then
      let (tr, fatal) := runScript rest
      (s :: tr, fatal)
    else ([], true)

/-- The statements of `sandbox_runner.py` paired with their outcome under
the oracle, in the order they appear in the source (lines 10, 11, 12,
16–23, 24, 28–29, 34).  The final `exec` of guest code is the last
statement; it is always reached if everything before it succeeded. -/
def srScript (e : SREnv) : List (SRStep × Bool) :=
  [(.setCpuLimit, e.cpuOk), (.setAsLimit, e.asOk), (.setFsizeLimit, e.fsizeOk),
   (.buildFilter, e.buildOk), (.loadFilter, e.loadOk), (.openCodeFile, e.openOk),
   (.execGuest, true)]

/-- Statements of `sandbox_runner.py` that complete under oracle `e`. -/
def srTrace (e : SREnv) : List SRStep := (runScript (srScript e)).1

/-- Whether the `sandbox_runner.py` process dies with an uncaught
exception (a non-zero-status termination) under oracle `e`. -/
def srFatal (e : SREnv) : Bool := (runScript (srScript e)).2

/-- The setup steps 1–3 of the spec (resource ceilings, filter
construction, filter activation) all succeed. -/
def srSetupOk (e : SREnv) : Bool :=
  e.cpuOk && e.asOk && e.fsizeOk && e.buildOk && e.loadOk

/-! ## Syscall filter: `backend/sandbox_runner.py` lines 16–24

`flt = seccomp.SyscallFilter(defaction=seccomp.ERRNO(seccomp.errno.EPERM))`
followed by four `add_rule(ALLOW, …)` calls.  A seccomp filter resolves a
syscall against its rules: the first rule whose syscall name matches and
whose argument comparison (if any) holds determines the action; otherwise
the default action applies. -/

/-- A seccomp action: allow the syscall, fail it with an errno returned to
the caller, or kill the process. -/
inductive SCAction where
  | allow
  | errnoRet (e : Nat)
  | kill
deriving DecidableEq, Repr

/-- One filter rule: the syscall name, an optional argument equality
condition `Arg(i, EQ, v)`, and the action taken on match. -/
structure SCRule where
  name : String
  argEq : Option (Nat × Nat)
  action : SCAction

/-- Does rule `r` match syscall `sc` invoked with arguments `args`? -/
def matchesRule (r : SCRule) (sc : String) (args : Nat → Nat) : Bool :=
  r.name == sc &&
    match r.argEq with
    | none => true
    | some (i, v) => args i == v

/-- Resolve a syscall against an ordered rule list with a default action. -/
def evalFilter (rules : List SCRule) (defaction : SCAction) (sc : String)
    (args : Nat → Nat) : SCAction :=
  match rules with
  | [] => defaction
  | r :: rest =>
    if matchesRule r sc args then r.action else evalFilter rest defaction sc args

/-- Value of `errno.EPERM` on Linux. -/
def EPERM : Nat := 1

/-- The four rules added to `flt`, in source order: allow `write` when
arg 0 equals the stdout descriptor, allow `write` when arg 0 equals the
stderr descriptor, allow `exit_group`, allow `exit`. -/
def fltRules (stdoutFd stderrFd : Nat) : List SCRule :=
  [⟨"write", some (0, stdoutFd), .allow⟩,
   ⟨"write", some (0, stderrFd), .allow⟩,
   ⟨"exit_group", none, .allow⟩,
   ⟨"exit", none, .allow⟩]

/-- The loaded filter: rules over default action `ERRNO(EPERM)`. -/
def fltEval (stdoutFd stderrFd : Nat) (sc : String) (args : Nat → Nat) : SCAction :=
  evalFilter (fltRules stdoutFd stderrFd) (.errnoRet EPERM) sc args

/-! ## Request/response schema: `backend/src/app/schema.py` -/

/-- Model of `class CodeRequest(BaseModel): code: str; timeout: int = 5`. -/
structure CodeRequest where
  code : String
  timeout : Int
deriving DecidableEq, Repr

/-- The default for the `timeout` field (schema.py line 6). -/
def codeRequestDefaultTimeout : Int := 5

/-- Pydantic validation of an inbound `/execute` body against
`CodeRequest`: `code` is a required string with no size constraint;
`timeout` is an int defaulting to 5, with no positivity or upper-bound
constraint (the model declares no validators). -/
def validateCodeRequest (code : Option String) (timeout : Option Int) :
    Except String CodeRequest :=
  match code with
  | none => .error "field required"
  | some c => .ok ⟨c, timeout.getD codeRequestDefaultTimeout⟩

/-- Model of `class CodeResponse(BaseModel): output: str; error: str; exit_code: int`. -/
structure CodeResponse where
  output : String
  error : String
  exit_code : Int
deriving DecidableEq, Repr

/-- The declared field names of `CodeResponse`, in source order
(schema.py lines 10–12). -/
def codeResponseFields : List String := ["output", "error", "exit_code"]

/-! ## Identity provider: `src/services/user_group.py`

`pwd.getpwnam` / `grp.getgrnam` succeed or raise `KeyError`; we model the
account databases as predicates saying which names resolve. -/

/-- List `self.possible_users` (user_group.py line 8). -/
def possible_users : List String := ["nobody", "www-data", "daemon", "nginx", "apache"]

/-- List `self.possible_groups` (user_group.py lines 9–16). -/
def possible_groups : List String :=
  ["nobody", "nogroup", "www-data", "daemon", "nginx", "apache"]

/-- Method `_get_user`: first candidate user name that the password database
resolves, else `None` (user_group.py lines 27–33). -/
def get_user (pwdDb : String → Bool) : Option String :=
  possible_users.find? pwdDb

/-- Method `_get_group`: first candidate group name that the group database
resolves, else `None` (user_group.py lines 35–41). -/
def get_group (grpDb : String → Bool) : Option String :=
  possible_groups.find? grpDb

/-- Method `_get_user_group`: if either lookup failed, fall back to the numeric
pair `("65534", "65534")`; otherwise the resolved pair
(user_group.py lines 19–25). -/
def get_user_group (pwdDb grpDb : String → Bool) : String × String :=
  match get_user pwdDb, get_group grpDb with
  | some u, some g => (u, g)
  | _, _ => ("65534", "65534")

/-! ## `/execute` orchestrator: `backend/src/app/api.py` -/

/-- The guest source file path: `os.path.join(temp_dir, f"{execution_id}.py")`
(api.py line 24). -/
def guestFilePath (temp_dir execution_id : String) : String :=
  temp_dir ++ "/" ++ execution_id ++ ".py"

/-- The nsjail invocation built by `execute_code` (api.py lines 28–52),
as the exact argv list. -/
def nsjail_cmd (timeout : Int) (temp_dir user group file_path : String) :
    List String :=
  ["nsjail", "--quiet",
   "--mode", "o",
   "--time_limit", toString timeout,
   "--rlimit_cpu", toString timeout,
   "--rlimit_as", "100",
   "--chroot", "/",
   "--cwd", temp_dir,
   "--user", user,
   "--group", group,
   "--disable_proc",
   "--iface_no_lo",
   "--",
   "/usr/bin/python3", file_path]

/-- The wall-clock deadline passed to `process.communicate`
(api.py line 63): `request.timeout + 1`. -/
def wallClockDeadline (req : CodeRequest) : Int := req.timeout + 1

/-- What the spawned subprocess does, as observed by the orchestrator:
normal completion with captured streams and exit code, expiry of the
wall-clock deadline (`subprocess.TimeoutExpired`), or an exception while
preparing/spawning (caught by the outer `except`). -/
inductive SubprocOutcome where
  | completed (stdout stderr : String) (exit_code : Int)
  | timedOut
  | spawnError (msg : String)

/-- What a kill issued by the orchestrator is aimed at: the immediate
child process (`process.kill()`) or its whole process group. -/
inductive KillTarget where
  | childProcess
  | processGroup
deriving DecidableEq, Repr

/-- Sentinel exit code assigned on timeout (api.py line 73). -/
def timeoutSentinelExitCode : Int := -1

/-- Fixed stderr marker assigned on timeout (api.py line 72). -/
def timeoutMarker : String := "Execution timed out"

/-- Observable outcome of one `/execute` request: the HTTP-level reply
(`.ok` = a 200 with a `CodeResponse` body, `.error` = an
`HTTPException(500, …)` detail), the kill signals the orchestrator
issued, and the directories existing after the handler returns. -/
structure ExecOutcome where
  cmd : List String
  deadline : Int
  response : Except String CodeResponse
  kills : List KillTarget
  finalFs : List String

/-- Shallow embedding of the `execute_code` handler (api.py lines 16–80).
`temp_dir` is the fresh directory made by `tempfile.TemporaryDirectory`
(removed when the `with` block exits, on every path), `fs` the
directories existing on entry, and `outcome` the oracle for what the
spawned subprocess does. -/
def execute_code (req : CodeRequest) (execution_id temp_dir user group : String)
    (outcome : SubprocOutcome) (fs : List String) : ExecOutcome :=
  let fs1 := temp_dir :: fs
  let cmd := nsjail_cmd req.timeout temp_dir user group
    (guestFilePath temp_dir execution_id)
  match outcome with
  | .completed out err code =>
      { cmd := cmd, deadline := wallClockDeadline req,
        response := .ok ⟨out, err, code⟩, kills := [],
        finalFs := fs1.erase temp_dir }
  | .timedOut =>
      { cmd := cmd, deadline := wallClockDeadline req,
        response := .ok ⟨"", timeoutMarker, timeoutSentinelExitCode⟩,
        kills := [.childProcess], finalFs := fs1.erase temp_dir }
  | .spawnError msg =>
      { cmd := cmd, deadline := wallClockDeadline req,
        response := .error ("Internal server error: " ++ msg),
        kills := [], finalFs := fs1.erase temp_dir }

/-- Predicate: `cmd` has token `t` at some position. -/
def hasToken (cmd : List String) (t : String) : Prop :=
  ∃ i, cmd.get? i = some t

/-- Predicate: `cmd` passes flag `flag` with value `value` at adjacent positions. -/
def hasArgPair (cmd : List String) (flag value : String) : Prop :=
  ∃ i, cmd.get? i = some flag ∧ cmd.get? (i + 1) = some value

end CodeEditor

namespace CodeEditor

/-! ## Helper lemmas -/

theorem evalFilter_nil (d : SCAction) (sc : String) (args : Nat → Nat) :
    evalFilter [] d sc args = d := rfl

theorem evalFilter_cons (r : SCRule) (rest : List SCRule) (d : SCAction)
    (sc : String) (args : Nat → Nat) :
    evalFilter (r :: rest) d sc args =
      if matchesRule r sc args then r.action else evalFilter rest d sc args := rfl

set_option maxRecDepth 8192 in
/-- Closed form of the loaded filter, by first-match resolution of the
four rules. -/
theorem fltEval_eq (stdoutFd stderrFd : Nat) (sc : String) (args : Nat → Nat) :
    fltEval stdoutFd stderrFd sc args =
      if (sc = "write" ∧ (args 0 = stdoutFd ∨ args 0 = stderrFd)) ∨
          sc = "exit" ∨ sc = "exit_group"
      then SCAction.allow else SCAction.errnoRet EPERM := by
  simp only [fltEval, fltRules, evalFilter_cons, evalFilter_nil, matchesRule,
    Bool.and_eq_true, beq_iff_eq, and_true]
  by_cases hw : sc = "write" <;> by_cases h1 : args 0 = stdoutFd <;>
    by_cases h2 : args 0 = stderrFd <;> by_cases he : sc = "exit" <;>
    by_cases hg : sc = "exit_group" <;>
    simp_all [eq_comm]

end CodeEditor

namespace CodeEditor

/-! # Theorems -/

/-- Claim C1. — In every run of `sandbox_runner.py`, the guest `exec` happens
only when all three setup phases (resource ceilings, filter construction,
filter load) succeeded, and then the completed statements are exactly the
source-order sequence: CPU limit, address-space limit, file-size limit,
filter construction, filter load, file open, guest execution.  If any
setup phase fails, the process terminates fatally with no guest
execution. -/
theorem sandbox_runner_setup_before_guest (e : SREnv) :
    (SRStep.execGuest ∈ srTrace e →
      srTrace e = [.setCpuLimit, .setAsLimit, .setFsizeLimit,
                   .buildFilter, .loadFilter, .openCodeFile, .execGuest]) ∧
    (srSetupOk e = false →
      SRStep.execGuest ∉ srTrace e ∧ srFatal e = true) := by
  obtain ⟨a, b, c, d, f, g⟩ := e
  cases a <;> cases b <;> cases c <;> cases d <;> cases f <;> cases g <;>
    simp [srTrace, srFatal, srSetupOk, srScript, runScript]

/-- Witness for C1: with every statement succeeding, the guest runs after
the full ordered setup; with the filter load failing, the guest never
runs and the process dies. -/
theorem sandbox_runner_setup_before_guest_witness :
    srTrace ⟨true, true, true, true, true, true⟩ =
      [.setCpuLimit, .setAsLimit, .setFsizeLimit,
       .buildFilter, .loadFilter, .openCodeFile, .execGuest] ∧
    (SRStep.execGuest ∉ srTrace ⟨true, true, true, true, false, true⟩ ∧
      srFatal ⟨true, true, true, true, false, true⟩ = true) :=
  ⟨(sandbox_runner_setup_before_guest ⟨true, true, true, true, true, true⟩).1
      (by decide),
   (sandbox_runner_setup_before_guest ⟨true, true, true, true, false, true⟩).2
      (by decide)⟩

/-- Claim C2. — The filter loaded by `sandbox_runner.py` allows a syscall
exactly when it is `write` with first argument equal to the stdout or the
stderr descriptor, or `exit`, or `exit_group`; every other syscall gets
`ERRNO(EPERM)` — an error returned to the caller — and no syscall is ever
answered with a process kill. -/
theorem flt_allowlist_exact (stdoutFd stderrFd : Nat) (sc : String)
    (args : Nat → Nat) :
    (fltEval stdoutFd stderrFd sc args = .allow ↔
      ((sc = "write" ∧ (args 0 = stdoutFd ∨ args 0 = stderrFd)) ∨
        sc = "exit" ∨ sc = "exit_group")) ∧
    (fltEval stdoutFd stderrFd sc args ≠ .allow →
      fltEval stdoutFd stderrFd sc args = .errnoRet EPERM) ∧
    fltEval stdoutFd stderrFd sc args ≠ .kill := by
  rw [fltEval_eq]
  by_cases h : (sc = "write" ∧ (args 0 = stdoutFd ∨ args 0 = stderrFd)) ∨
      sc = "exit" ∨ sc = "exit_group" <;> simp [h]

/-- Witness for C2: with the conventional descriptors 1 and 2, `openat`
is denied with `EPERM` (not killed), and a `write` to descriptor 1 is
allowed. -/
theorem flt_allowlist_exact_witness :
    fltEval 1 2 "openat" (fun _ => 0) = .errnoRet EPERM ∧
    fltEval 1 2 "write" (fun _ => 1) = .allow :=
  ⟨(flt_allowlist_exact 1 2 "openat" (fun _ => 0)).2.1 (by decide),
   (flt_allowlist_exact 1 2 "write" (fun _ => 1)).1.mpr
      (Or.inl ⟨rfl, Or.inl rfl⟩)⟩

/-- Claim C3 (code evaluation). — For every `/execute` request, the nsjail
argv built by the handler ends, after the `--` separator, with exactly
`["/usr/bin/python3", <guest source file>]`: the jailed process runs the
guest source directly under the bare interpreter, with no intervening
invocation of the `sandbox_runner` self-restriction module — so no
in-process second enforcement layer is applied in delegated mode. -/
theorem execute_runs_guest_directly (req : CodeRequest)
    (execution_id temp_dir user group : String) (outcome : SubprocOutcome)
    (fs : List String) :
    ((execute_code req execution_id temp_dir user group outcome fs).cmd).length
        = 23 ∧
    ((execute_code req execution_id temp_dir user group outcome fs).cmd).get? 20
        = some "--" ∧
    ((execute_code req execution_id temp_dir user group outcome fs).cmd).get? 21
        = some "/usr/bin/python3" ∧
    ((execute_code req execution_id temp_dir user group outcome fs).cmd).get? 22
        = some (guestFilePath temp_dir execution_id) := by
  cases outcome <;> exact ⟨rfl, rfl, rfl, rfl⟩

/-- Claim C4 (counterexample). — The response model delivered to the caller
declares exactly the fields `output`, `error`, `exit_code`; it has no
`timed_out` field, so no timeout result can carry `timed_out = true`. -/
theorem codeResponse_has_no_timed_out_field :
    "timed_out" ∉ codeResponseFields := by decide

/-- Claim C4 (amended). — For every request whose wall-clock deadline
expires, the handler replies with HTTP success (the `.ok` path, never the
500 `.error` path) carrying empty stdout, the fixed `"Execution timed
out"` marker in the error field, and the sentinel exit code `-1`. -/
theorem execute_timeout_response (req : CodeRequest)
    (execution_id temp_dir user group : String) (fs : List String) :
    (execute_code req execution_id temp_dir user group .timedOut fs).response =
      .ok ⟨"", timeoutMarker, timeoutSentinelExitCode⟩ := rfl

/-- Claim C5 (counterexample). — At a concrete timed-out request, the
orchestrator's kill actions do not include the process group: only the
immediate child is signalled (`process.kill()`, api.py line 71). -/
theorem execute_timeout_no_group_kill_cex :
    KillTarget.processGroup ∉
      (execute_code ⟨"while True: pass", 2⟩ "id0" "/tmp/exec0" "nobody"
        "nogroup" .timedOut []).kills := by decide

/-- Claim C5 (amended). — On every deadline expiry the orchestrator issues
exactly one kill, aimed at the immediate child process; it never signals
the process group, so descendants are not directly terminated by the
orchestrator. -/
theorem execute_timeout_kills_child_only (req : CodeRequest)
    (execution_id temp_dir user group : String) (fs : List String) :
    (execute_code req execution_id temp_dir user group .timedOut fs).kills =
      [KillTarget.childProcess] := rfl

/-- Claim C6. — For every request, the nsjail invocation sets the in-jail
CPU-time ceiling `--rlimit_cpu` to the request's timeout, and the
orchestrator waits with an external wall-clock deadline of
`timeout + 1`, which is strictly greater than the CPU ceiling. -/
theorem cpu_ceiling_below_deadline (req : CodeRequest)
    (execution_id temp_dir user group : String) (outcome : SubprocOutcome)
    (fs : List String) :
    hasArgPair (execute_code req execution_id temp_dir user group outcome fs).cmd
      "--rlimit_cpu" (toString req.timeout) ∧
    (execute_code req execution_id temp_dir user group outcome fs).deadline =
      req.timeout + 1 ∧
    req.timeout <
      (execute_code req execution_id temp_dir user group outcome fs).deadline := by
  cases outcome <;>
    exact ⟨⟨6, rfl, rfl⟩, rfl, by show req.timeout < req.timeout + 1; omega⟩

/-- Claim C7. — For every request and every subprocess outcome — normal
completion, deadline expiry, or an exception while preparing/spawning —
the handler leaves the filesystem as it found it: the temporary directory
created for the `ExecutionUnit` is removed, so if it was fresh it does
not exist once the request finishes. -/
theorem temp_dir_removed (req : CodeRequest)
    (execution_id temp_dir user group : String) (outcome : SubprocOutcome)
    (fs : List String) :
    (execute_code req execution_id temp_dir user group outcome fs).finalFs = fs ∧
    (temp_dir ∉ fs →
      temp_dir ∉
        (execute_code req execution_id temp_dir user group outcome fs).finalFs) := by
  have h : (execute_code req execution_id temp_dir user group outcome fs).finalFs
      = fs := by
    cases outcome <;> simp [execute_code, List.erase_cons_head]
  refine ⟨h, fun hn => ?_⟩
  rw [h]
  exact hn

/-- Witness for C7: a concrete crashed request removes its fresh temp
directory. -/
theorem temp_dir_removed_witness :
    "/tmp/exec1" ∉
      (execute_code ⟨"print(1)", 5⟩ "id1" "/tmp/exec1" "nobody" "nogroup"
        (.spawnError "No such file or directory: nsjail") ["/", "/tmp"]).finalFs :=
  (temp_dir_removed ⟨"print(1)", 5⟩ "id1" "/tmp/exec1" "nobody" "nogroup"
    (.spawnError "No such file or directory: nsjail") ["/", "/tmp"]).2 (by decide)

/-- Claim C8. — For every `/execute` request, the isolation invocation
expresses a time limit, a CPU-time limit, an address-space limit, working
directory equal to the request's temp directory, the run-as identity, a
disabled loopback interface, a disabled proc pseudo-filesystem,
single-shot mode, and a pinned chroot root with no read-write remount
request (nsjail mounts the chroot read-only unless `--rw` is passed). -/
theorem nsjail_invocation_expresses_isolation (req : CodeRequest)
    (execution_id temp_dir user group : String) (outcome : SubprocOutcome)
    (fs : List String)
    (ht : toString req.timeout ≠ "--rw") (hdir : temp_dir ≠ "--rw")
    (huser : user ≠ "--rw") (hgroup : group ≠ "--rw")
    (hfile : guestFilePath temp_dir execution_id ≠ "--rw") :
    hasArgPair (execute_code req execution_id temp_dir user group outcome fs).cmd
      "--time_limit" (toString req.timeout) ∧
    hasArgPair (execute_code req execution_id temp_dir user group outcome fs).cmd
      "--rlimit_cpu" (toString req.timeout) ∧
    hasArgPair (execute_code req execution_id temp_dir user group outcome fs).cmd
      "--rlimit_as" "100" ∧
    hasArgPair (execute_code req execution_id temp_dir user group outcome fs).cmd
      "--cwd" temp_dir ∧
    hasArgPair (execute_code req execution_id temp_dir user group outcome fs).cmd
      "--user" user ∧
    hasArgPair (execute_code req execution_id temp_dir user group outcome fs).cmd
      "--group" group ∧
    hasToken (execute_code req execution_id temp_dir user group outcome fs).cmd
      "--iface_no_lo" ∧
    hasToken (execute_code req execution_id temp_dir user group outcome fs).cmd
      "--disable_proc" ∧
    hasArgPair (execute_code req execution_id temp_dir user group outcome fs).cmd
      "--mode" "o" ∧
    hasArgPair (execute_code req execution_id temp_dir user group outcome fs).cmd
      "--chroot" "/" ∧
    "--rw" ∉ (execute_code req execution_id temp_dir user group outcome fs).cmd := by
  cases outcome <;>
    refine ⟨⟨4, rfl, rfl⟩, ⟨6, rfl, rfl⟩, ⟨8, rfl, rfl⟩, ⟨12, rfl, rfl⟩,
      ⟨14, rfl, rfl⟩, ⟨16, rfl, rfl⟩, ⟨19, rfl⟩, ⟨18, rfl⟩, ⟨2, rfl, rfl⟩,
      ⟨10, rfl, rfl⟩, ?_⟩ <;>
  · intro hmem
    simp only [execute_code, nsjail_cmd, List.mem_cons, List.not_mem_nil,
      or_false] at hmem
    rcases hmem with h | h | h | h | h | h | h | h | h | h | h | h | h | h |
      h | h | h | h | h | h | h | h | h <;>
      first
        | exact absurd h.symm ht
        | exact absurd h.symm hdir
        | exact absurd h.symm huser
        | exact absurd h.symm hgroup
        | exact absurd h.symm hfile
        | simp at h

/-- Witness for C8: the invocation for a concrete request expresses the
full isolation surface; in particular no `--rw` remount is requested. -/
theorem nsjail_invocation_expresses_isolation_witness :
    "--rw" ∉ (execute_code ⟨"print(1)", 5⟩ "id2" "/tmp/exec2" "nobody" "nogroup"
      (.completed "1\n" "" 0) []).cmd :=
  (nsjail_invocation_expresses_isolation ⟨"print(1)", 5⟩ "id2" "/tmp/exec2"
    "nobody" "nogroup" (.completed "1\n" "" 0) [] (by decide) (by decide)
    (by decide) (by decide) (by decide)).2.2.2.2.2.2.2.2.2.2

/-- Claim C9 (counterexample). — Validation accepts `timeout = 0`, which is
not strictly positive; nothing rejects it. -/
theorem validateCodeRequest_accepts_nonpositive :
    validateCodeRequest (some "while True: pass") (some 0) =
      .ok ⟨"while True: pass", 0⟩ := rfl

/-- Claim C9 (amended). — Every request carrying a `code` field is accepted:
the code text is unconstrained in size, the timeout may be any integer
(no positivity requirement, no server-side maximum), and it defaults to 5
when omitted. -/
theorem validateCodeRequest_accepts_all (code : String) (timeout : Option Int) :
    validateCodeRequest (some code) timeout = .ok ⟨code, timeout.getD 5⟩ ∧
    validateCodeRequest (some code) none = .ok ⟨code, 5⟩ := ⟨rfl, rfl⟩

/-- Claim C10. — Identity resolution is all-or-nothing: the resolved pair is
either fully drawn from the fixed candidate lists or is the fully numeric
fallback `("65534", "65534")` — the numeric user appears exactly when the
numeric group does — and neither component can be a privileged account
(`root` or uid/gid `0`). -/
theorem get_user_group_all_or_nothing (pwdDb grpDb : String → Bool) :
    (((get_user_group pwdDb grpDb).1 ∈ possible_users ∧
        (get_user_group pwdDb grpDb).2 ∈ possible_groups) ∨
      ((get_user_group pwdDb grpDb).1 = "65534" ∧
        (get_user_group pwdDb grpDb).2 = "65534")) ∧
    ((get_user_group pwdDb grpDb).1 = "65534" ↔
      (get_user_group pwdDb grpDb).2 = "65534") ∧
    (get_user_group pwdDb grpDb).1 ≠ "root" ∧
    (get_user_group pwdDb grpDb).2 ≠ "root" ∧
    (get_user_group pwdDb grpDb).1 ≠ "0" ∧
    (get_user_group pwdDb grpDb).2 ≠ "0" := by
  have hu : ∀ u ∈ possible_users, u ≠ "65534" ∧ u ≠ "root" ∧ u ≠ "0" := by decide
  have hg : ∀ g ∈ possible_groups, g ≠ "65534" ∧ g ≠ "root" ∧ g ≠ "0" := by decide
  rcases hfu : get_user pwdDb with _ | u <;>
    rcases hfg : get_group grpDb with _ | g <;>
    simp only [get_user_group, hfu, hfg]
  · decide
  · decide
  · decide
  · have hu' := hu u (List.mem_of_find?_eq_some hfu)
    have hg' := hg g (List.mem_of_find?_eq_some hfg)
    exact ⟨Or.inl ⟨List.mem_of_find?_eq_some hfu, List.mem_of_find?_eq_some hfg⟩,
      by simp [hu'.1, hg'.1], hu'.2.1, hg'.2.1, hu'.2.2, hg'.2.2⟩

/-- Witness for C10: with a database resolving `www-data` as a user but
no group name, the pair collapses to the fully numeric fallback, which is
not privileged. -/
theorem get_user_group_all_or_nothing_witness :
    get_user_group (fun n => n == "www-data") (fun _ => false) =
      ("65534", "65534") ∧
    (get_user_group (fun n => n == "www-data") (fun _ => false)).1 ≠ "root" :=
  ⟨by decide,
   (get_user_group_all_or_nothing (fun n => n == "www-data") (fun _ => false)).2.2.1⟩

end CodeEditor
